import Mathlib

/-!
Verification of the lib-lp-staking-frontend repository against its
natural-language specification.

The repository is a React UI over an on-chain LPStaking contract.  The
definitions below are a shallow embedding of the UI logic that the claims
are about: amount strings are modelled by the rational number they denote,
bigints by naturals, JS `undefined` by `Option`, promise rejection by
`Except`, and JS truthiness is made explicit where the code relies on it.
-/

set_option autoImplicit false

namespace LPStakingFrontend

/-- `ethers.parseEther`: a decimal token-amount string denoting the rational
`q` is converted to wei by scaling with `10 ^ 18`. -/
def parseEtherQ (q : ℚ) : ℚ := q * 10 ^ 18

/-- `ethers.formatEther`: a wei quantity rendered as the decimal token-amount
string denoting `wei / 10 ^ 18`. -/
def formatEtherQ (wei : ℚ) : ℚ := wei / 10 ^ 18

/-- One record of the contract's `actions(id)` mapping as the UI reads it
(`src/unnamed/part_000`): numeric action-type code, approval count, executed
flag, and the payload fields the details pane renders. -/
structure ActionRec where
  actionType : ℕ
  approvals : ℕ
  executed : Bool
  newHourlyRewardRate : ℕ
  pairToAdd : String
  pairNameToAdd : String
  platformToAdd : String
  weightToAdd : ℕ
  pairToRemove : String

/-- JS truthiness of an optional bigint: `undefined` and `0n` are falsy. -/
def truthyOptNat : Option ℕ → Bool
  | none => false
  | some n => n != 0

/-- `canExecute` of the proposals panel (`src/unnamed/part_000` line 152):
`!isExecuted && requiredApprovals && proposal.approvals &&
proposal.approvals >= requiredApprovals`, with `requiredApprovals` the
component state (possibly not yet loaded) and the two bigint conjuncts
contributing their JS truthiness.  The Execute button is disabled exactly
when this is false (line 177). -/
def canExecutePanel (executed : Bool) (required : Option ℕ) (approvals : ℕ) : Bool :=
  !executed && truthyOptNat required && (approvals != 0) && decide (approvals ≥ required.getD 0)

/-- The Execute button's `disabled` prop on the admin page
(`src/src/pages/admin.tsx` line 208): `!actionDetails ||
actionDetails.executed || actionDetails.approvals < (requiredApprovals || 0)`;
`requiredApprovals || 0` coalesces both `undefined` and `0n` to `0`. -/
def adminExecuteDisabled (details : Option ActionRec) (required : Option ℕ) : Bool :=
  match details with
  | none => true
  | some d =>
      d.executed || decide (d.approvals < (match required with
        | none => 0
        | some r => if r = 0 then 0 else r))

/-- Spec-side execute gate (§4.2 / §8 of the spec): execution is offered
iff the action is not executed and `approvals ≥ requiredApprovals`. -/
def execGateSpec (executed : Bool) (required approvals : ℕ) : Bool :=
  !executed && decide (approvals ≥ required)

/-- C1 counterexample: at a loaded, not-yet-executed action with
`approvals = 0` and `requiredApprovals = 0`, the spec-side gate offers
execution (`0 ≥ 0`), but the proposals panel's Execute control is disabled:
the JS truthiness of `requiredApprovals && proposal.approvals` switches the
gate off whenever either count is zero. -/
theorem c1_execute_gate_cex :
    execGateSpec false 0 0 = true ∧ canExecutePanel false (some 0) 0 = false := by
  decide

/-- C1 (amended): the admin page's Execute control (details loaded) is
enabled iff the action is not executed and `approvals ≥ requiredApprovals`,
exactly as claimed; the proposals panel's Execute control is enabled iff
additionally `requiredApprovals ≠ 0` and `approvals ≠ 0` (JS truthiness
guards), so for `requiredApprovals = 0` it stays disabled. -/
theorem c1_execute_gate :
    (∀ (d : ActionRec) (r : ℕ),
      adminExecuteDisabled (some d) (some r) = false ↔
        (d.executed = false ∧ d.approvals ≥ r)) ∧
    (∀ (executed : Bool) (r approvals : ℕ),
      canExecutePanel executed (some r) approvals = true ↔
        (executed = false ∧ r ≠ 0 ∧ approvals ≠ 0 ∧ approvals ≥ r)) := by
  constructor
  · intro d r
    rcases eq_or_ne r 0 with hr | hr
    · subst hr
      simp [adminExecuteDisabled]
    · simp [adminExecuteDisabled, hr]
  · intro executed r approvals
    cases executed <;> simp [canExecutePanel, truthyOptNat]
    all_goals omega

/-- The staking modal's unstake form state (`src/unnamed/part_002`):
the typed amount string (`none` for the empty string, else the rational the
string denotes) and the slider percent. -/
structure UnstakeForm where
  unstakeAmount : Option ℚ
  unstakePercent : ℚ

/-- `handleUnstakeAmountChange` (`src/unnamed/part_002` lines 93-111) for a
present pair and loaded `userStakeInfo` holding `stakedWei` wei: an empty
input clears amount and percent; a negative value leaves the state
unchanged; a value above `formatEther(stakedWei)` is clamped to exactly
that staked amount with percent 100; otherwise the value is kept and the
percent recomputed. -/
def handleUnstakeAmountChange (s : UnstakeForm) (value : Option ℚ) (stakedWei : ℚ) :
    UnstakeForm :=
  match value with
  | none => ⟨none, 0⟩
  | some v =>
      if v < 0 then s
      else if formatEtherQ stakedWei < v then ⟨some (formatEtherQ stakedWei), 100⟩
      else ⟨some v, v * 100 / formatEtherQ stakedWei⟩

/-- `handleUnstake` (`src/unnamed/part_002` lines 58-66) for a present pair
and signer: the amount string is the typed `unstakeAmount` if nonempty,
otherwise `unstakePercent * Number(stakedAmount.amount) / 100` where
`stakedAmount.amount` is the freshly fetched stake in RAW WEI (no
`formatEther`); if the amount is numerically zero no call is made,
otherwise `unstake` submits `parseEther(amount)` wei.  Returns the
submitted wei quantity, or `none` when no unstake is submitted. -/
def handleUnstakeSubmittedWei (unstakeAmount : Option ℚ) (unstakePercent : ℚ)
    (stakedWei : ℚ) : Option ℚ :=
  let amount := unstakeAmount.getD (unstakePercent * stakedWei / 100)
  if amount = 0 then none else some (parseEtherQ amount)

/-- The Unstake button's `disabled` prop (`src/unnamed/part_002` line 309):
`Number(unstakeAmount) === 0`.  The empty string numbers to 0, so the
button — the sole caller of `handleUnstake` — is disabled whenever no
nonzero typed amount is present, making the percent fallback inside
`handleUnstake` unreachable. -/
def unstakeButtonDisabledFlag (s : UnstakeForm) : Bool :=
  decide (s.unstakeAmount.getD 0 = 0)

/-- The unstake form states reachable by user input in the staking modal
with `userStakeInfo` holding `stakedWei` wei: the initial state has the
empty amount and percent 100 (`src/unnamed/part_002` lines 30-32); a text
edit goes through `handleUnstakeAmountChange`; a slider move sets a percent
within the slider's 0-100 range (lines 257-271) and the effect at lines
134-138 writes `unstakePercent * Number(formatEther(userStakeInfo.amount))
/ 100` as the new amount. -/
inductive UnstakeReachable (stakedWei : ℚ) : UnstakeForm → Prop
  | init : UnstakeReachable stakedWei ⟨none, 100⟩
  | typed (s : UnstakeForm) (value : Option ℚ) :
      UnstakeReachable stakedWei s →
      UnstakeReachable stakedWei (handleUnstakeAmountChange s value stakedWei)
  | slid (s : UnstakeForm) (pct : ℚ) :
      0 ≤ pct → pct ≤ 100 →
      UnstakeReachable stakedWei s →
      UnstakeReachable stakedWei ⟨some (pct * formatEtherQ stakedWei / 100), pct⟩

/-- In every reachable unstake form state, the typed amount, when present,
is at most the user's staked token amount: the text path clamps and the
slider path scales by at most 100%. -/
theorem unstakeAmount_le_staked (stakedWei : ℚ) (hst : 0 ≤ stakedWei)
    (s : UnstakeForm) (h : UnstakeReachable stakedWei s) :
    ∀ v : ℚ, s.unstakeAmount = some v → v ≤ formatEtherQ stakedWei := by
  have htok : 0 ≤ formatEtherQ stakedWei := div_nonneg hst (by positivity)
  induction h with
  | init => intro v hv; simp at hv
  | typed s value h ih =>
      intro v hv
      cases value with
      | none => simp [handleUnstakeAmountChange] at hv
      | some x =>
          simp only [handleUnstakeAmountChange] at hv
          by_cases hx : x < 0
          · rw [if_pos hx] at hv
            exact ih v hv
          · rw [if_neg hx] at hv
            by_cases hc : formatEtherQ stakedWei < x
            · rw [if_pos hc] at hv
              have hvv : v = formatEtherQ stakedWei := by simpa using hv.symm
              exact hvv ▸ le_refl _
            · rw [if_neg hc] at hv
              have hvv : v = x := by simpa using hv.symm
              exact hvv ▸ le_of_not_lt hc
  | slid s pct h0 h100 h ih =>
      intro v hv
      have hvv : v = pct * formatEtherQ stakedWei / 100 := by simpa using hv.symm
      subst hvv
      rw [div_le_iff₀ (by norm_num : (0 : ℚ) < 100)]
      have h1 : pct * formatEtherQ stakedWei ≤ 100 * formatEtherQ stakedWei :=
        mul_le_mul_of_nonneg_right h100 htok
      linarith

/-- C2: a typed amount greater than the staked balance is clamped to
exactly the staked token amount with the percent set to 100; and from every
unstake form state reachable by a sequence of user inputs, a submission can
only happen while the Unstake button is enabled (`Number(unstakeAmount)
!== 0`, so a nonzero typed amount is present, the percent fallback is
unreachable, and the clamped typed path is used), and the submitted wei
amount never exceeds the user's staked balance. -/
theorem c2_unstake_bounded :
    (∀ (s : UnstakeForm) (v stakedWei : ℚ), 0 ≤ stakedWei →
      formatEtherQ stakedWei < v →
      handleUnstakeAmountChange s (some v) stakedWei =
        ⟨some (formatEtherQ stakedWei), 100⟩) ∧
    (∀ (stakedWei : ℚ) (s : UnstakeForm), 0 ≤ stakedWei →
      UnstakeReachable stakedWei s →
      unstakeButtonDisabledFlag s = false →
      ∀ w : ℚ,
        handleUnstakeSubmittedWei s.unstakeAmount s.unstakePercent stakedWei = some w →
          w ≤ stakedWei) := by
  constructor
  · intro s v stakedWei hst hlt
    have hv0 : ¬ v < 0 :=
      not_lt.mpr (le_trans (div_nonneg hst (by positivity)) hlt.le)
    simp only [handleUnstakeAmountChange]
    rw [if_neg hv0, if_pos hlt]
  · intro stakedWei s hst hreach hbtn w hsub
    rcases hA : s.unstakeAmount with _ | v
    · rw [unstakeButtonDisabledFlag, hA] at hbtn
      simp at hbtn
    · have hv0 : v ≠ 0 := by
        rw [unstakeButtonDisabledFlag, hA] at hbtn
        simpa using hbtn
      have hle : v ≤ formatEtherQ stakedWei :=
        unstakeAmount_le_staked stakedWei hst s hreach v hA
      simp only [handleUnstakeSubmittedWei, hA, Option.getD_some] at hsub
      rw [if_neg hv0] at hsub
      have hw : w = parseEtherQ v := (Option.some.inj hsub).symm
      subst hw
      rw [parseEtherQ]
      calc v * 10 ^ 18 ≤ formatEtherQ stakedWei * 10 ^ 18 :=
            mul_le_mul_of_nonneg_right hle (by positivity)
        _ = stakedWei := by
            rw [formatEtherQ, div_mul_cancel₀ _ (by norm_num : (10 : ℚ) ^ 18 ≠ 0)]

/-- C2 witness: typing 2 tokens against a staked balance of `10 ^ 18` wei
(one token) is clamped to exactly the staked token amount with percent 100;
from that reachable state the Unstake button is enabled and the submission
is exactly `10 ^ 18` wei, which does not exceed the balance. -/
theorem c2_unstake_bounded_witness :
    handleUnstakeAmountChange ⟨none, 100⟩ (some 2) (10 ^ 18) =
      ⟨some (formatEtherQ (10 ^ 18)), 100⟩ ∧
    (10 ^ 18 : ℚ) ≤ 10 ^ 18 :=
  ⟨c2_unstake_bounded.1 ⟨none, 100⟩ 2 (10 ^ 18) (by norm_num)
      (by rw [formatEtherQ]; norm_num),
   c2_unstake_bounded.2 (10 ^ 18)
      (handleUnstakeAmountChange ⟨none, 100⟩ (some 2) (10 ^ 18)) (by norm_num)
      (UnstakeReachable.typed _ (some 2) UnstakeReachable.init)
      (by norm_num [handleUnstakeAmountChange, formatEtherQ, unstakeButtonDisabledFlag])
      (10 ^ 18)
      (by norm_num [handleUnstakeAmountChange, handleUnstakeSubmittedWei,
        formatEtherQ, parseEtherQ])⟩

/-- The results the external on-chain LPStaking contract would return to the
UI's read calls, plus acceptance of its transaction calls; the contract
itself is an external collaborator (spec §6), so it is modelled as a plain
record of responses. -/
structure OnChainContract where
  dailyRewardRateVal : ℕ
  totalWeightVal : ℕ
  rewardTokenAddr : String
  signersList : List String
  actionCounterVal : ℕ
  userStakes : String → String → ℕ × ℕ × ℕ
  pairsMap : String → String × String × ℕ × Bool
  pairsList : List (String × String × ℕ × Bool)

/-- The shape of the React context value (`ContractProvider.tsx` lines
9-47): every operation of the contract interface, each resolving
(`Except.ok`) or rejecting (`Except.error`). -/
structure ContractContextType where
  contract : Option OnChainContract
  stake : String → ℚ → Except String Unit
  unstake : String → ℚ → Except String Unit
  claimRewards : String → Except String Unit
  proposeSetDailyRewardRate : ℚ → Except String Unit
  proposeUpdatePairWeights : List String → List ℚ → Except String Unit
  proposeAddPair : String → String → String → ℚ → Except String Unit
  approveAction : ℕ → Except String Unit
  executeAction : ℕ → Except String Unit
  getUserStakeInfo : String → String → Except String (ℕ × ℕ × ℕ)
  getPairInfo : String → Except String (String × String × ℕ × Bool)
  getPairs : Except String (List (String × String × ℕ × Bool))
  getDailyRewardRate : Except String ℕ
  getTotalWeight : Except String ℕ
  getRewardToken : Except String String
  getSigners : Except String (List String)
  getActionCounter : Except String ℕ

/-- The default context value (`ContractProvider.tsx` lines 49-70), in
effect for any consumer not wrapped in a `ContractProvider`: `contract` is
null and every operation resolves with a silent default — empty resolution
for the mutators, zero bigints, empty lists and empty strings for the
getters. -/
def defaultContractContext : ContractContextType where
  contract := none
  stake := fun _ _ => .ok ()
  unstake := fun _ _ => .ok ()
  claimRewards := fun _ => .ok ()
  proposeSetDailyRewardRate := fun _ => .ok ()
  proposeUpdatePairWeights := fun _ _ => .ok ()
  proposeAddPair := fun _ _ _ _ => .ok ()
  approveAction := fun _ => .ok ()
  executeAction := fun _ => .ok ()
  getUserStakeInfo := fun _ _ => .ok (0, 0, 0)
  getPairInfo := fun _ => .ok ("", "", 0, false)
  getPairs := .ok []
  getDailyRewardRate := .ok 0
  getTotalWeight := .ok 0
  getRewardToken := .ok ""
  getSigners := .ok []
  getActionCounter := .ok 0

/-- `if (!contract) throw new Error('Contract not initialized')` followed by
the contract call: the guard every operation of the `ContractProvider`
implementation starts with (`ContractProvider.tsx` lines 107-201). -/
def requireContract {α : Type} (copt : Option OnChainContract)
    (call : OnChainContract → α) : Except String α :=
  match copt with
  | none => .error "Contract not initialized"
  | some c => .ok (call c)

/-- The context value built by `ContractProvider` (`ContractProvider.tsx`
lines 107-234) over the current `contract` state: every operation first
requires an initialized contract and otherwise performs the (external)
contract call; transaction effects live on the chain, so a mutator resolves
with unit once submitted. -/
def providerContext (copt : Option OnChainContract) : ContractContextType where
  contract := copt
  stake := fun _lp _amt => requireContract copt fun _ => ()
  unstake := fun _lp _amt => requireContract copt fun _ => ()
  claimRewards := fun _lp => requireContract copt fun _ => ()
  proposeSetDailyRewardRate := fun _rate => requireContract copt fun _ => ()
  proposeUpdatePairWeights := fun _lps _ws => requireContract copt fun _ => ()
  proposeAddPair := fun _lp _name _platform _w => requireContract copt fun _ => ()
  approveAction := fun _id => requireContract copt fun _ => ()
  executeAction := fun _id => requireContract copt fun _ => ()
  getUserStakeInfo := fun user lp => requireContract copt fun c => c.userStakes user lp
  getPairInfo := fun lp => requireContract copt fun c => c.pairsMap lp
  getPairs := requireContract copt fun c => c.pairsList
  getDailyRewardRate := requireContract copt fun c => c.dailyRewardRateVal
  getTotalWeight := requireContract copt fun c => c.totalWeightVal
  getRewardToken := requireContract copt fun c => c.rewardTokenAddr
  getSigners := requireContract copt fun c => c.signersList
  getActionCounter := requireContract copt fun c => c.actionCounterVal

/-- C3 counterexample: the context's default value has no contract
initialized, yet its operations resolve with silent defaults instead of
rejecting — `stake` with an empty resolution, `getDailyRewardRate` with the
zero bigint, `getSigners` with the empty list, `getRewardToken` with the
empty string. -/
theorem c3_default_silent_cex :
    defaultContractContext.contract = none ∧
    defaultContractContext.stake "lp" 1 = .ok () ∧
    defaultContractContext.getDailyRewardRate = .ok 0 ∧
    defaultContractContext.getSigners = .ok [] ∧
    defaultContractContext.getRewardToken = .ok "" :=
  ⟨rfl, rfl, rfl, rfl, rfl⟩

/-- C3 (amended): every operation of the `ContractProvider` implementation
rejects with `Error('Contract not initialized')` while no contract is
initialized — no silent default; the silent defaults live only in the
context's default value, used when no provider is mounted. -/
theorem c3_no_contract_rejects :
    (∀ lp amt, (providerContext none).stake lp amt = .error "Contract not initialized") ∧
    (∀ lp amt, (providerContext none).unstake lp amt = .error "Contract not initialized") ∧
    (∀ lp, (providerContext none).claimRewards lp = .error "Contract not initialized") ∧
    (∀ rate, (providerContext none).proposeSetDailyRewardRate rate =
      .error "Contract not initialized") ∧
    (∀ lps ws, (providerContext none).proposeUpdatePairWeights lps ws =
      .error "Contract not initialized") ∧
    (∀ lp nm pf w, (providerContext none).proposeAddPair lp nm pf w =
      .error "Contract not initialized") ∧
    (∀ id, (providerContext none).approveAction id = .error "Contract not initialized") ∧
    (∀ id, (providerContext none).executeAction id = .error "Contract not initialized") ∧
    (∀ u lp, (providerContext none).getUserStakeInfo u lp =
      .error "Contract not initialized") ∧
    (∀ lp, (providerContext none).getPairInfo lp = .error "Contract not initialized") ∧
    (providerContext none).getPairs = .error "Contract not initialized" ∧
    (providerContext none).getDailyRewardRate = .error "Contract not initialized" ∧
    (providerContext none).getTotalWeight = .error "Contract not initialized" ∧
    (providerContext none).getRewardToken = .error "Contract not initialized" ∧
    (providerContext none).getSigners = .error "Contract not initialized" ∧
    (providerContext none).getActionCounter = .error "Contract not initialized" :=
  ⟨fun _ _ => rfl, fun _ _ => rfl, fun _ => rfl, fun _ => rfl, fun _ _ => rfl,
   fun _ _ _ _ => rfl, fun _ => rfl, fun _ => rfl, fun _ _ => rfl, fun _ => rfl,
   rfl, rfl, rfl, rfl, rfl, rfl⟩

/-- Modelled from the spec: the staking-ledger state read by
`pendingRewards` (spec §3/§4.1).  The LPStaking contract implementing it is
not part of this repository — the UI only calls `getPendingRewards` — so
the state is taken from the spec's data model: global `dailyRewardRate`,
`totalWeight` and current time, per-pool weight and `totalStaked`, and
per-(user, pool) principal, materialized pending rewards and last reward
time.  Pools are keyed by token address, times are measured in days. -/
structure LedgerState where
  dailyRewardRate : ℚ
  totalWeight : ℚ
  now : ℚ
  poolWeight : String → ℚ
  poolTotalStaked : String → ℚ
  posAmount : String → String → ℚ
  posPending : String → String → ℚ
  posLastRewardTime : String → String → ℚ

/-- Modelled from the spec: the `pendingRewards` value of §4.1 —
`previously pending + (now - lastRewardTime) * dailyRewardRate *
pool.weight / totalWeight * position.amount / pool.totalStaked`, with the
contributed term zero whenever `totalWeight = 0` or `pool.totalStaked = 0`. -/
def pendingRewardsValue (prev elapsed rate weight totalWeight amount totalStaked : ℚ) : ℚ :=
  prev +
    (if totalWeight = 0 ∨ totalStaked = 0 then 0
     else elapsed * rate * weight / totalWeight * amount / totalStaked)

/-- Modelled from the spec: `pendingRewards(user, pool)` as a state-passing
operation, returning the (unchanged) ledger state together with the
computed value — the read-only query of spec §4.1. -/
def pendingRewards (s : LedgerState) (user pool : String) : LedgerState × ℚ :=
  (s,
   pendingRewardsValue (s.posPending user pool)
     (s.now - s.posLastRewardTime user pool)
     s.dailyRewardRate (s.poolWeight pool) s.totalWeight
     (s.posAmount user pool) (s.poolTotalStaked pool))

/-- The scenario state of spec §8: pool X weight 10, pool Y weight 30,
`totalWeight = 40`, `dailyRewardRate = 100`, a sole staker holding 50 in X
(`totalStaked = 50`), last touched at time 0, queried at time 1 (one day
elapsed), nothing previously pending. -/
def scenarioState : LedgerState where
  dailyRewardRate := 100
  totalWeight := 40
  now := 1
  poolWeight := fun p => if p = "X" then 10 else if p = "Y" then 30 else 0
  poolTotalStaked := fun p => if p = "X" then 50 else 0
  posAmount := fun u p => if u = "staker" ∧ p = "X" then 50 else 0
  posPending := fun _ _ => 0
  posLastRewardTime := fun _ _ => 0

/-- C4: `pendingRewards` mutates no state (it returns the ledger unchanged);
its value is `previously pending + elapsed * dailyRewardRate * weight /
totalWeight * amount / totalStaked`, the contributed term being zero
whenever `totalWeight = 0` or `totalStaked = 0`; and on the spec's scenario
(weights 10/30, totalWeight 40, rate 100, sole staker of 50 in X, one day
elapsed) it yields exactly 25. -/
theorem c4_pending_rewards :
    (∀ (s : LedgerState) (user pool : String), (pendingRewards s user pool).1 = s) ∧
    (∀ prev elapsed rate weight totalWeight amount totalStaked : ℚ,
      totalWeight = 0 ∨ totalStaked = 0 →
        pendingRewardsValue prev elapsed rate weight totalWeight amount totalStaked = prev) ∧
    (∀ prev elapsed rate weight totalWeight amount totalStaked : ℚ,
      totalWeight ≠ 0 → totalStaked ≠ 0 →
        pendingRewardsValue prev elapsed rate weight totalWeight amount totalStaked =
          prev + elapsed * rate * weight / totalWeight * amount / totalStaked) ∧
    (pendingRewards scenarioState "staker" "X").2 = 25 := by
  refine ⟨fun s user pool => rfl, ?_, ?_, ?_⟩
  · intro prev elapsed rate weight totalWeight amount totalStaked h
    simp [pendingRewardsValue, h]
  · intro prev elapsed rate weight totalWeight amount totalStaked h1 h2
    simp [pendingRewardsValue, h1, h2]
  · simp only [pendingRewards, pendingRewardsValue, scenarioState]
    norm_num

/-- C4 witness: the zero-guard and generic-formula conjuncts applied at
concrete inputs — `totalWeight = 0` forces the contributed term to zero,
and with all divisors nonzero the formula yields `7 + 1 * 100 * 10 / 40 *
50 / 50 = 32`. -/
theorem c4_pending_rewards_witness :
    pendingRewardsValue 7 1 100 10 0 50 50 = 7 ∧
    pendingRewardsValue 7 1 100 10 40 50 50 = 32 :=
  ⟨c4_pending_rewards.2.1 7 1 100 10 0 50 50 (Or.inl rfl),
   by
    have h := c4_pending_rewards.2.2.1 7 1 100 10 40 50 50 (by norm_num) (by norm_num)
    rw [h]; norm_num⟩

/-- `loadContractData` of the proposals panel (`src/unnamed/part_000` lines
46-65): after reading `actionCounter = counter`, the proposals list is
built by the loop `for (let i = 1n; i <= counter; i++)
tmpProposals.push(await contract.actions(i))` — the dense scan of action
ids `1..counter` in increasing order. -/
def loadProposals (counter : ℕ) (actions : ℕ → ActionRec) : List ActionRec :=
  (List.range counter).map fun i => actions (i + 1)

/-- The ID rendered for the proposal at a given 0-based list index
(`src/unnamed/part_000` line 150): `actionId = index + 1`. -/
def renderedActionId (index : ℕ) : ℕ := index + 1

/-- C5: after `loadContractData` completes with `actionCounter = counter`,
the proposals list has exactly `counter` entries, and the entry at 0-based
index `i` is the record `actions(i + 1)` — the record of the ID it is
rendered with — so listing proposals is the dense scan `id = 1..counter`. -/
theorem c5_dense_scan (counter : ℕ) (actions : ℕ → ActionRec) :
    (loadProposals counter actions).length = counter ∧
    ∀ index : ℕ, index < counter →
      (loadProposals counter actions).get? index =
        some (actions (renderedActionId index)) := by
  constructor
  · simp [loadProposals]
  · intro index h
    simp [loadProposals, renderedActionId, List.getElem?_map, List.getElem?_range h]

/-- A concrete `actions(id)` table used to instantiate C5's scan. -/
def sampleActions : ℕ → ActionRec := fun id =>
  { actionType := id % 5
    approvals := id
    executed := false
    newHourlyRewardRate := 0
    pairToAdd := ""
    pairNameToAdd := ""
    platformToAdd := ""
    weightToAdd := 0
    pairToRemove := "" }

/-- C5 witness: with `actionCounter = 3`, the entry at index 1 is
`actions(2)`, the record of rendered ID 2. -/
theorem c5_dense_scan_witness :
    (loadProposals 3 sampleActions).get? 1 = some (sampleActions (renderedActionId 1)) :=
  (c5_dense_scan 3 sampleActions).2 1 (by decide)

/-- The proposals panel's action-type catalogue (`src/unnamed/part_000`
line 32), indexed by the numeric `actionType` code. -/
def ACTION_TYPE : List String :=
  ["SET_HOURLY_REWARD_RATE", "UPDATE_PAIR_WEIGHTS", "ADD_PAIR", "REMOVE_PAIR", "CHANGE_SIGNER"]

/-- The spec's five action kinds (spec §3), in the order the claim pairs
them with codes 0 through 4. -/
def specActionKinds : List String :=
  ["SetDailyRewardRate", "UpdatePairWeights", "AddPair", "RemovePair", "ChangeSigner"]

/-- The type label the panel renders for a proposal
(`src/unnamed/part_000` line 164): `ACTION_TYPE[proposal.actionType]`. -/
def renderedTypeLabel (p : ActionRec) : Option String :=
  ACTION_TYPE.get? p.actionType

/-- The rate detail line of the expanded proposal row
(`src/unnamed/part_000` lines 194-198): when `proposal.newHourlyRewardRate`
is truthy (nonzero), the caption `"New Hourly Reward Rate"` with the
ether-formatted rate; otherwise no rate line. -/
def rateDetailLine (p : ActionRec) : Option (String × ℚ) :=
  if p.newHourlyRewardRate ≠ 0 then
    some ("New Hourly Reward Rate", formatEtherQ (p.newHourlyRewardRate : ℚ))
  else none

/-- A rate-change proposal (actionType code 0) proposing a rate of
`5 * 10 ^ 18` wei (5 tokens/day). -/
def sampleRateAction : ActionRec where
  actionType := 0
  approvals := 0
  executed := false
  newHourlyRewardRate := 5 * 10 ^ 18
  pairToAdd := ""
  pairNameToAdd := ""
  platformToAdd := ""
  weightToAdd := 0
  pairToRemove := ""

/-- C6: evaluating the code at the failing input.  The catalogue does pair
codes 0..4 with the spec's five kinds positionally (same length, matching
order for codes 1..4), and the detail shown for a code-0 proposal is the
ether-formatted proposed rate; but the rendering for code 0 is
`SET_HOURLY_REWARD_RATE` with caption `"New Hourly Reward Rate"`, naming
hourly the kind the spec — and this same app's contract API
(`proposeSetDailyRewardRate`, `dailyRewardRate`, the admin page's
"Set Daily Reward Rate" heading) — calls the daily-reward-rate change. -/
theorem c6_hourly_label_eval :
    ACTION_TYPE.length = specActionKinds.length ∧
    renderedTypeLabel sampleRateAction = some "SET_HOURLY_REWARD_RATE" ∧
    specActionKinds.get? 0 = some "SetDailyRewardRate" ∧
    rateDetailLine sampleRateAction = some ("New Hourly Reward Rate", 5) := by
  refine ⟨rfl, rfl, rfl, ?_⟩
  simp only [rateDetailLine, sampleRateAction, formatEtherQ]
  norm_num

/-- The pair selected in the staking modal (`PairInfo` as the modal uses
it): LP token address and the 18-decimal-scaled weight. -/
structure PairInfo where
  lpToken : String
  pairName : String
  weight : ℕ

/-- `handleStake` (`src/unnamed/part_002` lines 49-56): with no selected
pair nothing happens; otherwise the amount string is the typed
`stakeAmount` if nonempty, else `stakePercent * balance / 100`; if the
amount is numerically zero no call is made, otherwise `stake(lpToken,
amount)` is invoked.  Returns the invoked call, or `none` when `stake` is
not called. -/
def handleStakeSubmitted (selectedPair : Option PairInfo) (stakeAmount : Option ℚ)
    (stakePercent balance : ℚ) : Option (String × ℚ) :=
  match selectedPair with
  | none => none
  | some pair =>
      let amount := stakeAmount.getD (stakePercent * balance / 100)
      if amount = 0 then none else some (pair.lpToken, amount)

/-- The Stake button's `disabled` prop (`src/unnamed/part_002` line 237):
`selectedPair?.weight === BigInt(0) || Number(stakeAmount) === 0`, the
empty amount string numbering to 0. -/
def stakeButtonDisabledFlag (pair : PairInfo) (stakeAmount : Option ℚ) : Bool :=
  decide (pair.weight = 0) || decide (stakeAmount.getD 0 = 0)

/-- C7: `handleStake` returns without calling `stake` whenever the computed
amount is 0; any call it does make carries a nonzero amount; and the Stake
control is disabled whenever the selected pair's weight is 0 or the entered
stake amount numbers to 0. -/
theorem c7_stake_guards :
    (∀ (sp : Option PairInfo) (sa : Option ℚ) (pct bal : ℚ),
      sa.getD (pct * bal / 100) = 0 → handleStakeSubmitted sp sa pct bal = none) ∧
    (∀ (sp : Option PairInfo) (sa : Option ℚ) (pct bal : ℚ) (lp : String) (amt : ℚ),
      handleStakeSubmitted sp sa pct bal = some (lp, amt) → amt ≠ 0) ∧
    (∀ (pair : PairInfo) (sa : Option ℚ),
      pair.weight = 0 ∨ sa.getD 0 = 0 → stakeButtonDisabledFlag pair sa = true) := by
  refine ⟨?_, ?_, ?_⟩
  · intro sp sa pct bal h
    cases sp with
    | none => rfl
    | some pair => simp [handleStakeSubmitted, h]
  · intro sp sa pct bal lp amt h
    cases sp with
    | none => simp [handleStakeSubmitted] at h
    | some pair =>
        simp only [handleStakeSubmitted] at h
        rcases eq_or_ne (sa.getD (pct * bal / 100)) 0 with h0 | h0
        · simp [h0] at h
        · rw [if_neg h0] at h
          cases h
          exact h0
  · intro pair sa h
    rcases h with h | h <;> simp [stakeButtonDisabledFlag, h]

/-- The pair used to instantiate C7's guards. -/
def samplePair : PairInfo where
  lpToken := "0xlp"
  pairName := "LIB/ETH"
  weight := 0

/-- C7 witness: with a typed amount of 0 no stake call is made, and with
the zero-weight pair the Stake control is disabled. -/
theorem c7_stake_guards_witness :
    handleStakeSubmitted (some samplePair) (some 0) 50 10 = none ∧
    stakeButtonDisabledFlag samplePair (some 3) = true :=
  ⟨c7_stake_guards.1 (some samplePair) (some 0) 50 10 rfl,
   c7_stake_guards.2.2 samplePair (some 3) (Or.inl rfl)⟩

/-- `ethers.formatUnits(w, 18)` (`ContractProvider.tsx` line 271): the
exact decimal string for `w` wei, modelled by its integer part and its
18-digit fractional part. -/
def formatUnits18 (w : ℕ) : ℕ × ℕ := (w / 10 ^ 18, w % 10 ^ 18)

/-- The update-weights form prefill (`ContractProvider.tsx` lines 345-353):
the selected pair's formatted weight string is placed in the form
unmodified. -/
def prefillWeight (s : ℕ × ℕ) : ℕ × ℕ := s

/-- `ethers.parseEther` on a decimal weight string given by integer part
and fractional part: defined only when the fraction has at most 18 digits,
yielding the wei value. -/
def parseEtherParts (p : ℕ × ℕ) : Option ℕ :=
  if p.2 < 10 ^ 18 then some (p.1 * 10 ^ 18 + p.2) else none

/-- `proposeUpdatePairWeights` (`ContractProvider.tsx` lines 133-138)
applies `parseEther` to each submitted weight string:
`weights.map(w => ethers.parseEther(w))`, the whole call failing if any
string fails to parse. -/
def proposeWeightsInWei : List (ℕ × ℕ) → Option (List ℕ)
  | [] => some []
  | p :: rest =>
      match parseEtherParts p, proposeWeightsInWei rest with
      | some w, some ws => some (w :: ws)
      | _, _ => none

/-- Parsing the exact formatted rendering of `w` wei recovers `w`. -/
theorem parseEtherParts_formatUnits18 (w : ℕ) :
    parseEtherParts (formatUnits18 w) = some w := by
  simp only [parseEtherParts, formatUnits18]
  rw [if_pos (Nat.mod_lt _ (by norm_num))]
  exact congrArg some (by omega)

/-- C8: reading each on-chain weight with `formatUnits(w, 18)`, prefilling
it unmodified into the update-weights form, and submitting through
`proposeUpdatePairWeights` (which parses each weight with `parseEther`)
yields exactly the original weights again — the display/submission round
trip is the identity. -/
theorem c8_weight_round_trip (ws : List ℕ) :
    proposeWeightsInWei (ws.map fun w => prefillWeight (formatUnits18 w)) = some ws := by
  induction ws with
  | nil => rfl
  | cons w rest ih =>
      simp only [List.map_cons, proposeWeightsInWei, prefillWeight] at ih ⊢
      rw [parseEtherParts_formatUnits18, ih]

/-- A per-row control of the proposals panel's Actions cell. -/
inductive ActionControl
  | approveBtn
  | executeBtn (enabled : Bool)
deriving DecidableEq

/-- The Actions cell rendered for a proposal (`src/unnamed/part_000` lines
167-184): for a not-yet-executed proposal, the Approve button and the
Execute button (the latter enabled per `canExecute`); for an executed
proposal, the `!isExecuted &&` guard renders nothing. -/
def renderedControls (p : ActionRec) (required : Option ℕ) : List ActionControl :=
  if p.executed then []
  else [.approveBtn, .executeBtn (canExecutePanel p.executed required p.approvals)]

/-- C9: for every proposal whose `executed` flag is true, the panel renders
neither the Approve nor the Execute control, so the UI never invokes
`approveAction` or `executeAction` on an action already marked executed. -/
theorem c9_executed_hides_controls (p : ActionRec) (required : Option ℕ)
    (h : p.executed = true) : renderedControls p required = [] := by
  simp [renderedControls, h]

/-- C9 witness: an executed rate-change action renders no controls. -/
theorem c9_executed_hides_controls_witness :
    renderedControls { sampleRateAction with executed := true } (some 2) = [] :=
  c9_executed_hides_controls _ (some 2) rfl

/-- The proposals panel's component state touched by the approve/execute
handlers (`src/unnamed/part_000` lines 37-39). -/
structure PanelState where
  proposals : List ActionRec
  actionCounter : Option ℕ
  requiredApprovals : Option ℕ

/-- JS `Array.prototype.map` with the element index, as used by
`prev.map((p, idx) => ...)`: `start` is the index of the first element. -/
def mapWithIdx (f : ℕ → ActionRec → ActionRec) : ℕ → List ActionRec → List ActionRec
  | _, [] => []
  | start, p :: rest => f start p :: mapWithIdx f (start + 1) rest

/-- The `setProposals` update both handlers perform on success
(`src/unnamed/part_000` lines 78 and 93):
`prev.map((p, idx) => (idx + 1 === id ? updatedProposal : p))`. -/
def updateProposalsAt (ps : List ActionRec) (id : ℕ) (updated : ActionRec) :
    List ActionRec :=
  mapWithIdx (fun idx p => if idx + 1 = id then updated else p) 0 ps

/-- `handleApproveAction` (`src/unnamed/part_000` lines 71-84) on success:
re-fetches `actions(id)` and replaces only the entry rendered with ID `id`;
`actionCounter` and `requiredApprovals` are untouched. -/
def handleApproveRefresh (actions : ℕ → ActionRec) (s : PanelState) (id : ℕ) :
    PanelState :=
  { s with proposals := updateProposalsAt s.proposals id (actions id) }

/-- `handleExecuteAction` (`src/unnamed/part_000` lines 86-99) on success:
the same refresh as `handleApproveRefresh`. -/
def handleExecuteRefresh (actions : ℕ → ActionRec) (s : PanelState) (id : ℕ) :
    PanelState :=
  { s with proposals := updateProposalsAt s.proposals id (actions id) }

/-- Indexing `mapWithIdx`: the element at `idx` is `f (start + idx)` of the
original element there. -/
theorem mapWithIdx_get? (f : ℕ → ActionRec → ActionRec) (start : ℕ)
    (ps : List ActionRec) (idx : ℕ) :
    (mapWithIdx f start ps).get? idx = (ps.get? idx).map (f (start + idx)) := by
  induction ps generalizing start idx with
  | nil => simp [mapWithIdx]
  | cons p rest ih =>
      cases idx with
      | zero => simp [mapWithIdx]
      | succ n =>
          have harith : start + 1 + n = start + (n + 1) := by omega
          rw [show mapWithIdx f start (p :: rest) =
              f start p :: mapWithIdx f (start + 1) rest from rfl]
          rw [List.get?_cons_succ, List.get?_cons_succ, ih, harith]

/-- `mapWithIdx` preserves length. -/
theorem mapWithIdx_length (f : ℕ → ActionRec → ActionRec) (start : ℕ)
    (ps : List ActionRec) : (mapWithIdx f start ps).length = ps.length := by
  induction ps generalizing start with
  | nil => rfl
  | cons p rest ih => simp [mapWithIdx, ih]

/-- C10: after a successful `handleApproveAction`/`handleExecuteAction` for
action `id`, the proposals array changes only at position `id` (its entry
at index `id - 1`, rendered with ID `id`, becomes the re-fetched record
`actions(id)`); every other entry, the list length, and the
`actionCounter` and `requiredApprovals` state are unchanged — and the
execute handler performs the identical refresh. -/
theorem c10_refresh_frame (actions : ℕ → ActionRec) (s : PanelState) (id : ℕ) :
    (handleApproveRefresh actions s id).actionCounter = s.actionCounter ∧
    (handleApproveRefresh actions s id).requiredApprovals = s.requiredApprovals ∧
    (handleApproveRefresh actions s id).proposals.length = s.proposals.length ∧
    (∀ idx : ℕ, idx + 1 ≠ id →
      (handleApproveRefresh actions s id).proposals.get? idx = s.proposals.get? idx) ∧
    (∀ idx : ℕ, idx + 1 = id → idx < s.proposals.length →
      (handleApproveRefresh actions s id).proposals.get? idx = some (actions id)) ∧
    handleExecuteRefresh actions s id = handleApproveRefresh actions s id := by
  refine ⟨rfl, rfl, mapWithIdx_length _ _ _, ?_, ?_, rfl⟩
  · intro idx hne
    rw [show (handleApproveRefresh actions s id).proposals =
        updateProposalsAt s.proposals id (actions id) from rfl]
    rw [updateProposalsAt, mapWithIdx_get?]
    rcases hget : s.proposals.get? idx with _ | p
    · rfl
    · simp [Nat.zero_add, if_neg hne]
  · intro idx heq hlt
    rw [show (handleApproveRefresh actions s id).proposals =
        updateProposalsAt s.proposals id (actions id) from rfl]
    rw [updateProposalsAt, mapWithIdx_get?]
    rcases hget : s.proposals.get? idx with _ | p
    · exact absurd (List.get?_eq_none.mp hget) (by omega)
    · simp [Nat.zero_add, if_pos heq]

/-- C10 witness: refreshing action 2 in a three-entry panel replaces only
index 1 with the re-fetched record and leaves index 0, the length and the
counters unchanged. -/
theorem c10_refresh_frame_witness :
    (handleApproveRefresh sampleActions
        ⟨[sampleActions 1, sampleActions 2, sampleActions 3], some 3, some 2⟩
        2).proposals.get? 0 =
      ([sampleActions 1, sampleActions 2, sampleActions 3] : List ActionRec).get? 0 ∧
    (handleApproveRefresh sampleActions
        ⟨[sampleActions 1, sampleActions 2, sampleActions 3], some 3, some 2⟩
        2).proposals.get? 1 = some (sampleActions 2) :=
  ⟨(c10_refresh_frame sampleActions
      ⟨[sampleActions 1, sampleActions 2, sampleActions 3], some 3, some 2⟩ 2).2.2.2.1
      0 (by decide),
   (c10_refresh_frame sampleActions
      ⟨[sampleActions 1, sampleActions 2, sampleActions 3], some 3, some 2⟩ 2).2.2.2.2.1
      1 rfl (by decide)⟩

end LPStakingFrontend
